import Mathlib

/-!
Shallow embedding of the Smiley Store backend (`main.py`, `schemas.py`) and
proofs about its order-placement workflow, catalog seeding and listing.

The document store is modelled as typed collections (`Store`); the process-wide
handle `db` from `database.py` is modelled as `Option Store` (`none` = no usable
backing connection).  MongoDB ObjectIds are modelled as natural numbers whose
transport form is a 24-character hexadecimal string.  Python floats are modelled
as rationals.
-/

namespace SmileyStore

/-- Product document, from `ProductCreate` in `main.py` (same shape as
`Product` in `schemas.py`). -/
structure Product where
  title : String
  description : Option String
  price : ℚ
  category : String
  images : List String
  sizes : List String
  in_stock : Bool
  deriving DecidableEq, Inhabited

/-- `CartItem` from `main.py`: pydantic declares `quantity : int` with
`Field(..., ge=1, le=10)`; the range check is `CartItem.is_valid` below. -/
structure CartItem where
  product_id : String
  size : String
  quantity : Int
  deriving DecidableEq, Inhabited

/-- `CustomerInfo` from `main.py`. -/
structure CustomerInfo where
  name : String
  email : String
  address : String
  deriving DecidableEq, Inhabited

/-- `OrderCreate` from `main.py`: note the pydantic model puts no non-emptiness
constraint on `items`. -/
structure OrderCreate where
  items : List CartItem
  customer : CustomerInfo
  deriving DecidableEq, Inhabited

/-- One serialized line item, as appended to `items_serialized` in
`create_order`. -/
structure LineItem where
  product_id : String
  title : String
  size : String
  quantity : Int
  unit_price : ℚ
  line_total : ℚ
  deriving DecidableEq, Inhabited

/-- The `order_doc` dictionary built in `create_order`. -/
structure OrderDoc where
  items : List LineItem
  customer : CustomerInfo
  total : ℚ
  status : String
  deriving DecidableEq, Inhabited

/-- The response of the order route: `serialize_doc(saved)`, i.e. the persisted
order document with its store-assigned identifier rendered as text. -/
structure OrderResponse where
  id : String
  items : List LineItem
  customer : CustomerInfo
  total : ℚ
  status : String
  deriving DecidableEq, Inhabited

/-- The response shape of the product listing route: `serialize_doc(p)`. -/
structure ProductOut where
  id : String
  title : String
  description : Option String
  price : ℚ
  category : String
  images : List String
  sizes : List String
  in_stock : Bool
  deriving DecidableEq, Inhabited

/-- The two collections the routes touch.  Product identifiers are explicit
keys; order identifiers are the list index at insertion time. -/
structure Store where
  products : List (Nat × Product)
  orders : List OrderDoc
  deriving DecidableEq, Inhabited

/-- Errors surfaced by the HTTP layer.  `ProductNotFound pid` is
`HTTPException(status_code=404, detail="Product not found: " ++ pid)` in
`create_order`; `ValidationError` is pydantic's 422 rejection;
`StoreUnavailable` is the server-side failure class of spec sections 4.1/7. -/
inductive ApiError where
  | ProductNotFound (product_id : String)
  | StoreUnavailable
  | ValidationError
  deriving DecidableEq, Inhabited

/-- HTTP status mapping: 404 comes from the `HTTPException` in `create_order`;
422 is pydantic/FastAPI validation; unhandled server-side failure maps to 500
(spec section 6). -/
def ApiError.statusCode : ApiError → Nat
  | .ProductNotFound _ => 404
  | .StoreUnavailable => 500
  | .ValidationError => 422

deriving instance DecidableEq for Except

/-- `SEED_PRODUCTS` from `main.py`, verbatim. -/
def SEED_PRODUCTS : List Product :=
  [ { title := "Smiley Classic Hoodie"
    , description := some "Cozy fleece hoodie with the iconic Smiley front print."
    , price := 59
    , category := "hoodies"
    , images := ["https://images.unsplash.com/photo-1548883354-7622d03acae1?q=80&w=1600&auto=format&fit=crop"]
    , sizes := ["S", "M", "L", "XL"]
    , in_stock := true }
  , { title := "Smiley Minimal Tee"
    , description := some "Soft cotton t‑shirt with a subtle embroidered smile."
    , price := 24
    , category := "t-shirts"
    , images := ["https://images.unsplash.com/photo-1512436991641-6745cdb1723f?q=80&w=1600&auto=format&fit=crop"]
    , sizes := ["S", "M", "L", "XL"]
    , in_stock := true }
  , { title := "Smiley Oversized Hoodie"
    , description := some "Premium heavyweight hoodie, oversized fit."
    , price := 72
    , category := "hoodies"
    , images := ["https://images.unsplash.com/photo-1544441893-675973e31985?q=80&w=1600&auto=format&fit=crop"]
    , sizes := ["S", "M", "L", "XL"]
    , in_stock := true }
  , { title := "Smiley Retro Tee"
    , description := some "90s inspired graphic tee with retro smile."
    , price := 29
    , category := "t-shirts"
    , images := ["https://images.unsplash.com/photo-1503342217505-b0a15cf70489?q=80&w=1600&auto=format&fit=crop"]
    , sizes := ["S", "M", "L", "XL"]
    , in_stock := true }
  ]

/-- Hexadecimal digit test for ObjectId text. -/
def isHexChar (c : Char) : Bool :=
  c.isDigit || (97 ≤ c.toNat && c.toNat ≤ 102) || (65 ≤ c.toNat && c.toNat ≤ 70)

/-- Numeric value of a hexadecimal digit. -/
def hexVal (c : Char) : Nat :=
  if c.isDigit then c.toNat - 48
  else if 97 ≤ c.toNat && c.toNat ≤ 102 then c.toNat - 97 + 10
  else c.toNat - 65 + 10

/-- `bson.ObjectId(s)`: succeeds exactly on 24-character hexadecimal strings,
else raises (modelled as `none`). -/
def parseObjectId (s : String) : Option Nat :=
  if s.length == 24 && s.toList.all isHexChar then
    some (s.toList.foldl (fun n c => 16 * n + hexVal c) 0)
  else
    none

/-- The guarded product lookup of `create_order`:
`try: prod = db["product"].find_one({"_id": ObjectId(item.product_id)})
except Exception: prod = None`.
With no backing connection (`db = none`), subscripting raises and is caught;
a malformed identifier makes `ObjectId` raise and is caught; otherwise the
first matching document is returned. -/
def lookupProduct (db : Option Store) (pid : String) : Option Product :=
  match db with
  | none => none
  | some s =>
    match parseObjectId pid with
    | none => none
    | some oid => List.lookup oid s.products

/-- The per-item loop of `create_order`: resolves each cart item in input
order, failing fast with `ProductNotFound` at the first item whose lookup
yields nothing.  Returns the serialized line items together with the running
total, paired with the trace of product identifiers actually looked up. -/
def processItems (db : Option Store) : List CartItem → Except ApiError (List LineItem × ℚ) × List String
  | [] => (.ok ([], 0), [])
  | item :: rest =>
    match lookupProduct db item.product_id with
    | none => (.error (.ProductNotFound item.product_id), [item.product_id])
    | some prod =>
      let price := prod.price
      let line_total := price * (item.quantity : ℚ)
      let res := processItems db rest
      ( match res.1 with
        | .error e => .error e
        | .ok (lis, total) =>
          .ok ( { product_id := item.product_id
                , title := prod.title
                , size := item.size
                , quantity := item.quantity
                , unit_price := price
                , line_total := line_total } :: lis
              , line_total + total )
      , item.product_id :: res.2 )

/-- `round(total, 2)`: rounding to two decimal digits on rationals.  (Python
rounds binary floats half-to-even; the tie-breaking rule is immaterial to every
property proved here, which only require that this fixed function is applied.) -/
def round2 (q : ℚ) : ℚ := ((round (q * 100) : ℤ) : ℚ) / 100

/-- `serialize_doc(saved)` for an order document: `_id` becomes the text field
`id`. -/
def serialize_order (oid : Nat) (d : OrderDoc) : OrderResponse :=
  { id := toString oid
  , items := d.items
  , customer := d.customer
  , total := d.total
  , status := d.status }

/-- Modelled from the spec: `create_document` of `database.py` (not in src/),
spec section 4.1 — inserts a new record into the named collection and returns
its assigned identifier; fails with `StoreUnavailable` if no backing connection
exists.  Specialised to the `order` collection; the assigned identifier is the
insertion index. -/
def create_document_order (db : Option Store) (doc : OrderDoc) : Except ApiError (Nat × Store) :=
  match db with
  | none => .error .StoreUnavailable
  | some s => .ok (s.orders.length, { s with orders := s.orders ++ [doc] })

/-- `find_one` on the `order` collection by identifier. -/
def find_one_order (s : Store) (oid : Nat) : Option OrderDoc :=
  s.orders[oid]?

/-- `create_order` from `main.py`: resolve and price every cart item in input
order (fail-fast on the first unresolved one), build `order_doc` with the
rounded total and status `received`, persist it, re-fetch the saved document
and serialize it.  Returns the route's result, the post-state of the store
handle, and the trace of product identifiers looked up. -/
def create_order (db : Option Store) (order : OrderCreate) :
    Except ApiError OrderResponse × Option Store × List String :=
  let res := processItems db order.items
  match res.1 with
  | .error e => (.error e, db, res.2)
  | .ok (items_serialized, total) =>
    let order_doc : OrderDoc :=
      { items := items_serialized
      , customer := order.customer
      , total := round2 total
      , status := "received" }
    match create_document_order db order_doc with
    | .error e => (.error e, db, res.2)
    | .ok (order_id, s2) =>
      match find_one_order s2 order_id with
      | some saved => (.ok (serialize_order order_id saved), some s2, res.2)
      | none => (.error .StoreUnavailable, some s2, res.2)

/-- The pydantic range constraint on `CartItem.quantity`:
`Field(..., ge=1, le=10)`. -/
def CartItem.is_valid (i : CartItem) : Bool :=
  decide (1 ≤ i.quantity) && decide (i.quantity ≤ 10)

/-- Request-body validation performed by FastAPI/pydantic before the route
body runs: every cart item's quantity must lie in [1,10].  `List[CartItem]`
carries no non-emptiness constraint. -/
def OrderCreate.is_valid (o : OrderCreate) : Bool :=
  o.items.all CartItem.is_valid

/-- The full HTTP path of `POST /api/order`: pydantic validation, then the
route body.  A validation failure is rejected before the workflow runs, with
no store interaction (empty lookup trace). -/
def handle_create_order (db : Option Store) (order : OrderCreate) :
    Except ApiError OrderResponse × Option Store × List String :=
  if OrderCreate.is_valid order then create_order db order
  else (.error .ValidationError, db, [])

/-- Store-side identifier assignment for a bulk insert: consecutive fresh
keys starting at `n`. -/
def number_from (n : Nat) : List Product → List (Nat × Product)
  | [] => []
  | d :: ds => (n, d) :: number_from (n + 1) ds

/-- `insert_many` on the `product` collection: appends the documents, assigning
fresh consecutive identifiers. -/
def insert_many_products (s : Store) (docs : List Product) : Store :=
  { s with products := s.products ++ number_from s.products.length docs }

/-- `ensure_seed_products` from `main.py`: with no backing connection the count
defaults to 0 and the insert raises (swallowed by the bare except), leaving the
handle unchanged; otherwise, if the `product` collection is empty, the seed set
is bulk-inserted. -/
def ensure_seed_products (db : Option Store) : Option Store :=
  match db with
  | none => none
  | some s =>
    if s.products.length == 0 then some (insert_many_products s SEED_PRODUCTS)
    else some s

/-- Modelled from the spec: `get_documents` of `database.py` (not in src/),
spec sections 4.1/6 — fetches all documents of the collection matching a simple
equality filter; with no usable backing connection, reads return empty.  The
route passes `{"category": category} if category else {}`, so an absent or
empty-string category means no filter. -/
def get_documents_products (db : Option Store) (category : Option String) : List (Nat × Product) :=
  match db with
  | none => []
  | some s =>
    match category with
    | none => s.products
    | some c => if c == "" then s.products else s.products.filter (fun p => p.2.category == c)

/-- `serialize_doc(p)` for a product document. -/
def serialize_product (kp : Nat × Product) : ProductOut :=
  { id := toString kp.1
  , title := kp.2.title
  , description := kp.2.description
  , price := kp.2.price
  , category := kp.2.category
  , images := kp.2.images
  , sizes := kp.2.sizes
  , in_stock := kp.2.in_stock }

/-- Drop the transport identifier again, recovering the stored document. -/
def ProductOut.stripId (p : ProductOut) : Product :=
  { title := p.title
  , description := p.description
  , price := p.price
  , category := p.category
  , images := p.images
  , sizes := p.sizes
  , in_stock := p.in_stock }

/-- `GET /api/products` from `main.py`: ensure the seed population has run,
then list (optionally filtered) and serialize.  Returns the response and the
post-state of the store handle. -/
def list_products (db : Option Store) (category : Option String) :
    List ProductOut × Option Store :=
  let db2 := ensure_seed_products db
  ((get_documents_products db2 category).map serialize_product, db2)

/-- The line item `create_order` builds for a cart item whose product lookup
succeeded (used only to state theorems). -/
def resolvedLine (db : Option Store) (item : CartItem) : LineItem :=
  let p := (lookupProduct db item.product_id).getD default
  { product_id := item.product_id
  , title := p.title
  , size := item.size
  , quantity := item.quantity
  , unit_price := p.price
  , line_total := p.price * (item.quantity : ℚ) }

/-- The order document `create_order` builds when every cart item resolves
(used only to state theorems). -/
def resolvedDoc (db : Option Store) (order : OrderCreate) : OrderDoc :=
  { items := order.items.map (resolvedLine db)
  , customer := order.customer
  , total := round2 ((order.items.map (fun i =>
      ((lookupProduct db i.product_id).getD default).price * (i.quantity : ℚ))).sum)
  , status := "received" }

/-- Concrete fixtures used by witnesses. -/
def w_hoodie : Product :=
  { title := "Smiley Classic Hoodie"
  , description := none
  , price := 59
  , category := "hoodies"
  , images := []
  , sizes := ["S", "M", "L", "XL"]
  , in_stock := true }

def w_tee : Product :=
  { title := "Smiley Minimal Tee"
  , description := none
  , price := 24
  , category := "t-shirts"
  , images := []
  , sizes := ["S", "M", "L", "XL"]
  , in_stock := true }

def w_store : Store :=
  { products := [(0, w_hoodie), (1, w_tee)], orders := [] }

def w_empty : Store := { products := [], orders := [] }

def w_customer : CustomerInfo :=
  { name := "Ada Lovelace", email := "ada@example.com", address := "1 Mathison Road" }

def w_pid0 : String := "000000000000000000000000"

def w_pid1 : String := "000000000000000000000001"

def w_pidAbsent : String := "ffffffffffffffffffffffff"

def w_order1 : OrderCreate :=
  { items := [ { product_id := w_pid0, size := "M", quantity := 2 }
             , { product_id := w_pid1, size := "L", quantity := 1 } ]
  , customer := w_customer }

def w_good0 : CartItem := { product_id := w_pid0, size := "M", quantity := 2 }

def w_bad : CartItem := { product_id := w_pidAbsent, size := "S", quantity := 1 }

def w_badMalformed : CartItem := { product_id := "does-not-exist", size := "M", quantity := 1 }

def w_post0 : CartItem := { product_id := w_pid1, size := "L", quantity := 3 }

def w_orderBadQty : OrderCreate :=
  { items := [ { product_id := w_pid0, size := "M", quantity := 11 } ]
  , customer := w_customer }

def w_orderWeirdSize : OrderCreate :=
  { items := [ { product_id := w_pid0, size := "XXL", quantity := 1 } ]
  , customer := w_customer }

theorem lookupProduct_eq_none_of_parse_none (db : Option Store) (pid : String)
    (h : parseObjectId pid = none) : lookupProduct db pid = none := by
  cases db with
  | none => rfl
  | some s => simp [lookupProduct, h]

theorem processItems_resolved (db : Option Store) :
    ∀ items : List CartItem, (∀ i ∈ items, (lookupProduct db i.product_id).isSome) →
      processItems db items =
        (.ok (items.map (resolvedLine db),
              (items.map (fun i =>
                ((lookupProduct db i.product_id).getD default).price * (i.quantity : ℚ))).sum),
         items.map CartItem.product_id)
  | [], _ => by simp [processItems]
  | a :: l, h => by
    obtain ⟨p, hp⟩ := Option.isSome_iff_exists.mp (h a (by simp))
    have hl := processItems_resolved db l (fun i hi => h i (by simp [hi]))
    simp [processItems, hp, hl, resolvedLine]

theorem processItems_first_fail (db : Option Store) (bad : CartItem) (post : List CartItem)
    (hbad : lookupProduct db bad.product_id = none) :
    ∀ pre : List CartItem, (∀ i ∈ pre, (lookupProduct db i.product_id).isSome) →
      processItems db (pre ++ bad :: post) =
        (.error (.ProductNotFound bad.product_id),
         pre.map CartItem.product_id ++ [bad.product_id])
  | [], _ => by simp [processItems, hbad]
  | a :: l, h => by
    obtain ⟨p, hp⟩ := Option.isSome_iff_exists.mp (h a (by simp))
    have hl := processItems_first_fail db bad post hbad l (fun i hi => h i (by simp [hi]))
    simp [processItems, hp, hl]

theorem create_order_resolved (s : Store) (order : OrderCreate)
    (h : ∀ i ∈ order.items, (lookupProduct (some s) i.product_id).isSome) :
    create_order (some s) order =
      (.ok (serialize_order s.orders.length (resolvedDoc (some s) order)),
       some { s with orders := s.orders ++ [resolvedDoc (some s) order] },
       order.items.map CartItem.product_id) := by
  simp [create_order, processItems_resolved (some s) order.items h, create_document_order,
    find_one_order, List.getElem?_concat_length, resolvedDoc]

/-- Claim C1: for every order whose cart items all resolve, the returned
order's total is the sum of unit_price × quantity over all items rounded to
two decimal digits, each line item's line_total is its unit_price × quantity,
each unit_price is the product's price as read at that item's lookup, and the
order's status is "received". -/
theorem create_order_total_correct (s : Store) (order : OrderCreate)
    (h : ∀ i ∈ order.items, (lookupProduct (some s) i.product_id).isSome) :
    ∃ resp : OrderResponse, ∃ s2 : Store, ∃ tr : List String,
      create_order (some s) order = (.ok resp, some s2, tr) ∧
      resp.total = round2 ((order.items.map (fun i =>
          ((lookupProduct (some s) i.product_id).getD default).price * (i.quantity : ℚ))).sum) ∧
      resp.status = "received" ∧
      List.Forall₂ (fun (i : CartItem) (li : LineItem) =>
          li.unit_price = ((lookupProduct (some s) i.product_id).getD default).price ∧
          li.line_total = li.unit_price * (i.quantity : ℚ)) order.items resp.items := by
  refine ⟨serialize_order s.orders.length (resolvedDoc (some s) order),
    { s with orders := s.orders ++ [resolvedDoc (some s) order] },
    order.items.map CartItem.product_id, create_order_resolved s order h, rfl, rfl, ?_⟩
  show List.Forall₂ _ order.items ((resolvedDoc (some s) order).items)
  rw [resolvedDoc]
  simp only [List.forall₂_map_right_iff]
  rw [List.forall₂_same]
  intro i _
  exact ⟨rfl, rfl⟩

theorem create_order_total_correct_witness :
    (∀ i ∈ w_order1.items, (lookupProduct (some w_store) i.product_id).isSome) ∧
    (∃ resp : OrderResponse, ∃ s2 : Store, ∃ tr : List String,
      create_order (some w_store) w_order1 = (.ok resp, some s2, tr) ∧
      resp.total = round2 ((w_order1.items.map (fun i =>
          ((lookupProduct (some w_store) i.product_id).getD default).price * (i.quantity : ℚ))).sum) ∧
      resp.status = "received" ∧
      List.Forall₂ (fun (i : CartItem) (li : LineItem) =>
          li.unit_price = ((lookupProduct (some w_store) i.product_id).getD default).price ∧
          li.line_total = li.unit_price * (i.quantity : ℚ)) w_order1.items resp.items) :=
  ⟨by decide, create_order_total_correct w_store w_order1 (by decide)⟩

/-- Claim C2: a cart whose first unresolved item is `bad` fails with
`ProductNotFound bad.product_id`, leaves the store handle (hence every
collection, hence the order count) unchanged, and looks up exactly the items
up to and including `bad` — items after it are never looked up. -/
theorem create_order_fail_fast (db : Option Store) (pre : List CartItem) (bad : CartItem)
    (post : List CartItem) (customer : CustomerInfo)
    (hpre : ∀ i ∈ pre, (lookupProduct db i.product_id).isSome)
    (hbad : lookupProduct db bad.product_id = none) :
    create_order db { items := pre ++ bad :: post, customer := customer } =
      (.error (.ProductNotFound bad.product_id), db,
       pre.map CartItem.product_id ++ [bad.product_id]) := by
  simp [create_order, processItems_first_fail db bad post hbad pre hpre]

theorem create_order_fail_fast_witness :
    (∀ i ∈ [w_good0], (lookupProduct (some w_store) i.product_id).isSome) ∧
    lookupProduct (some w_store) w_bad.product_id = none ∧
    create_order (some w_store) { items := [w_good0] ++ w_bad :: [w_post0], customer := w_customer } =
      (.error (.ProductNotFound w_bad.product_id), some w_store,
       [w_good0].map CartItem.product_id ++ [w_bad.product_id]) :=
  ⟨by decide, by decide,
   create_order_fail_fast (some w_store) [w_good0] w_bad [w_post0] w_customer
     (by decide) (by decide)⟩

/-- Claim C10: a cart item whose product_id is not a well-formed ObjectId text
makes order placement fail with the client-visible (404) `ProductNotFound`
error naming that text — the same outcome as a well-formed but absent
identifier — rather than a validation or server error. -/
theorem malformed_object_id_yields_product_not_found (db : Option Store)
    (pre : List CartItem) (bad : CartItem) (post : List CartItem) (customer : CustomerInfo)
    (hpre : ∀ i ∈ pre, (lookupProduct db i.product_id).isSome)
    (hbad : parseObjectId bad.product_id = none) :
    create_order db { items := pre ++ bad :: post, customer := customer } =
      (.error (.ProductNotFound bad.product_id), db,
       pre.map CartItem.product_id ++ [bad.product_id]) ∧
    ApiError.statusCode (.ProductNotFound bad.product_id) = 404 := by
  have hb := lookupProduct_eq_none_of_parse_none db bad.product_id hbad
  exact ⟨by simp [create_order, processItems_first_fail db bad post hb pre hpre], rfl⟩

theorem malformed_object_id_yields_product_not_found_witness :
    (∀ i ∈ [w_good0], (lookupProduct (some w_store) i.product_id).isSome) ∧
    parseObjectId w_badMalformed.product_id = none ∧
    (create_order (some w_store)
        { items := [w_good0] ++ w_badMalformed :: [w_post0], customer := w_customer } =
      (.error (.ProductNotFound w_badMalformed.product_id), some w_store,
       [w_good0].map CartItem.product_id ++ [w_badMalformed.product_id]) ∧
     ApiError.statusCode (.ProductNotFound w_badMalformed.product_id) = 404) :=
  ⟨by decide, by decide,
   malformed_object_id_yields_product_not_found (some w_store) [w_good0] w_badMalformed
     [w_post0] w_customer (by decide) (by decide)⟩

/-- Claim C3 counterexample: with the backing connection absent (the guarded
lookup's store operation raises on every item), `create_order` fails with the
client-visible 404 `ProductNotFound`, not with `StoreUnavailable`. -/
theorem store_failure_surfaces_as_not_found_cex :
    (create_order none w_order1).1 = .error (.ProductNotFound w_pid0) ∧
    (create_order none w_order1).1 ≠ .error .StoreUnavailable ∧
    ApiError.statusCode (.ProductNotFound w_pid0) = 404 := by decide

/-- Claim C3 amended: when the store operation of the guarded product lookup
fails (modelled: the backing connection is absent), order placement fails at
the first item with the client-visible `ProductNotFound` naming that item's
product identifier — not `StoreUnavailable` — and no order is created. -/
theorem store_failure_during_resolution_yields_product_not_found (first : CartItem)
    (rest : List CartItem) (customer : CustomerInfo) :
    create_order none { items := first :: rest, customer := customer } =
      (.error (.ProductNotFound first.product_id), none, [first.product_id]) := by
  simp [create_order, processItems, lookupProduct]

/-- Claim C4 counterexample: an order request with an empty item sequence is
not rejected — on an empty store it is accepted and an order document with no
line items, total 0 and status "received" is persisted. -/
theorem empty_cart_accepted_cex :
    (handle_create_order (some w_empty) { items := [], customer := w_customer }).1 =
      .ok { id := "0", items := [], customer := w_customer, total := 0, status := "received" } ∧
    (handle_create_order (some w_empty) { items := [], customer := w_customer }).2.1 =
      some { products := []
           , orders := [{ items := [], customer := w_customer, total := 0, status := "received" }] } := by
  have h0 : round2 0 = 0 := by simp [round2]
  refine ⟨?_, ?_⟩
  · simp only [handle_create_order, OrderCreate.is_valid, CartItem.is_valid, create_order,
      processItems, create_document_order, find_one_order, serialize_order, h0, w_empty]
    rfl
  · simp [handle_create_order, OrderCreate.is_valid, CartItem.is_valid, create_order,
      processItems, create_document_order, find_one_order, serialize_order, h0, w_empty]

/-- Claim C4 amended: an order request with an empty item sequence passes
validation (the pydantic model puts no non-emptiness constraint on `items`),
the workflow runs, and an order document with no line items, total 0 and
status "received" is persisted. -/
theorem empty_cart_creates_empty_order (s : Store) (customer : CustomerInfo) :
    handle_create_order (some s) { items := [], customer := customer } =
      (.ok { id := toString s.orders.length, items := [], customer := customer,
             total := 0, status := "received" },
       some { s with orders := s.orders ++
              [{ items := [], customer := customer, total := 0, status := "received" }] },
       []) := by
  have h0 : round2 0 = 0 := by simp [round2]
  simp [handle_create_order, OrderCreate.is_valid, create_order, processItems,
    create_document_order, find_one_order, List.getElem?_concat_length, serialize_order, h0]

/-- Claim C5: an order request containing a cart item whose quantity lies
outside [1,10] is rejected as a validation failure before the workflow runs:
no store interaction occurs (empty lookup trace) and the store handle is
untouched. -/
theorem invalid_quantity_rejected_before_store (db : Option Store) (order : OrderCreate)
    (h : ∃ i ∈ order.items, ¬(1 ≤ i.quantity ∧ i.quantity ≤ 10)) :
    handle_create_order db order = (.error .ValidationError, db, []) := by
  obtain ⟨i, hi, hq⟩ := h
  have hv : OrderCreate.is_valid order = false := by
    rw [OrderCreate.is_valid]
    cases hav : order.items.all CartItem.is_valid with
    | false => rfl
    | true =>
      exfalso
      have hvi := List.all_eq_true.mp hav i hi
      rw [CartItem.is_valid] at hvi
      simp only [Bool.and_eq_true, decide_eq_true_eq] at hvi
      exact hq hvi
  simp [handle_create_order, hv]

theorem invalid_quantity_rejected_before_store_witness :
    (∃ i ∈ w_orderBadQty.items, ¬(1 ≤ i.quantity ∧ i.quantity ≤ 10)) ∧
    handle_create_order (some w_store) w_orderBadQty =
      (.error .ValidationError, some w_store, []) :=
  ⟨by decide, invalid_quantity_rejected_before_store (some w_store) w_orderBadQty (by decide)⟩

/-- Claim C6: on success, the persisted line-item sequence pairs with the
cart's input sequence in order, and each line item carries exactly the cart
item's product identifier, the resolved product's title, the requested size
and quantity, the unit price snapshot, and the line total. -/
theorem order_line_items_preserve_input (s : Store) (order : OrderCreate)
    (h : ∀ i ∈ order.items, (lookupProduct (some s) i.product_id).isSome) :
    ∃ resp : OrderResponse, ∃ s2 : Store, ∃ tr : List String,
      create_order (some s) order = (.ok resp, some s2, tr) ∧
      List.Forall₂ (fun (i : CartItem) (li : LineItem) =>
        ∃ p : Product, lookupProduct (some s) i.product_id = some p ∧
          li = { product_id := i.product_id, title := p.title, size := i.size,
                 quantity := i.quantity, unit_price := p.price,
                 line_total := p.price * (i.quantity : ℚ) }) order.items resp.items := by
  refine ⟨_, _, _, create_order_resolved s order h, ?_⟩
  show List.Forall₂ _ order.items ((resolvedDoc (some s) order).items)
  rw [resolvedDoc]
  simp only [List.forall₂_map_right_iff]
  rw [List.forall₂_same]
  intro i hi
  obtain ⟨p, hp⟩ := Option.isSome_iff_exists.mp (h i hi)
  exact ⟨p, hp, by simp [resolvedLine, hp]⟩

theorem order_line_items_preserve_input_witness :
    (∀ i ∈ w_order1.items, (lookupProduct (some w_store) i.product_id).isSome) ∧
    (∃ resp : OrderResponse, ∃ s2 : Store, ∃ tr : List String,
      create_order (some w_store) w_order1 = (.ok resp, some s2, tr) ∧
      List.Forall₂ (fun (i : CartItem) (li : LineItem) =>
        ∃ p : Product, lookupProduct (some w_store) i.product_id = some p ∧
          li = { product_id := i.product_id, title := p.title, size := i.size,
                 quantity := i.quantity, unit_price := p.price,
                 line_total := p.price * (i.quantity : ℚ) }) w_order1.items resp.items) :=
  ⟨by decide, order_line_items_preserve_input w_store w_order1 (by decide)⟩

/-- Claim C9: when every cart item's product identifier resolves, order
placement succeeds with no condition whatsoever on the items' size texts —
size validity is never checked against the product's declared sizes — and each
line item's size is the input size copied verbatim. -/
theorem size_unchecked_copied_verbatim (s : Store) (order : OrderCreate)
    (h : ∀ i ∈ order.items, (lookupProduct (some s) i.product_id).isSome) :
    ∃ resp : OrderResponse, ∃ s2 : Store, ∃ tr : List String,
      create_order (some s) order = (.ok resp, some s2, tr) ∧
      List.Forall₂ (fun (i : CartItem) (li : LineItem) => li.size = i.size)
        order.items resp.items := by
  refine ⟨_, _, _, create_order_resolved s order h, ?_⟩
  show List.Forall₂ _ order.items ((resolvedDoc (some s) order).items)
  rw [resolvedDoc]
  simp only [List.forall₂_map_right_iff]
  rw [List.forall₂_same]
  intro i _
  rfl

theorem size_unchecked_copied_verbatim_witness :
    (∀ i ∈ w_orderWeirdSize.items, (lookupProduct (some w_store) i.product_id).isSome) ∧
    "XXL" ∉ w_hoodie.sizes ∧
    (∃ resp : OrderResponse, ∃ s2 : Store, ∃ tr : List String,
      create_order (some w_store) w_orderWeirdSize = (.ok resp, some s2, tr) ∧
      List.Forall₂ (fun (i : CartItem) (li : LineItem) => li.size = i.size)
        w_orderWeirdSize.items resp.items) :=
  ⟨by decide, by decide,
   size_unchecked_copied_verbatim w_store w_orderWeirdSize (by decide)⟩

theorem map_snd_number_from : ∀ (n : Nat) (docs : List Product),
    (number_from n docs).map Prod.snd = docs
  | _, [] => rfl
  | n, d :: ds => by simp [number_from, map_snd_number_from (n + 1) ds]

/-- Claim C7: a catalog listing performed when the product collection is empty
inserts the fixed hardcoded seed set of exactly 4 products before answering,
and the listing returns exactly those seed products (titles, categories,
prices and all other fields included). -/
theorem first_listing_seeds_catalog (s : Store) (h : s.products = []) :
    (list_products (some s) none).1.map ProductOut.stripId = SEED_PRODUCTS ∧
    (∃ s2 : Store, (list_products (some s) none).2 = some s2 ∧
      s2.products.map Prod.snd = SEED_PRODUCTS) ∧
    SEED_PRODUCTS.length = 4 := by
  have hs : ensure_seed_products (some s) = some (insert_many_products s SEED_PRODUCTS) := by
    simp [ensure_seed_products, h]
  have hprod : (insert_many_products s SEED_PRODUCTS).products.map Prod.snd = SEED_PRODUCTS := by
    simp [insert_many_products, h, map_snd_number_from]
  refine ⟨?_, ⟨insert_many_products s SEED_PRODUCTS, by simp [list_products, hs], hprod⟩, rfl⟩
  rw [list_products]
  simp only [hs, get_documents_products]
  rw [List.map_map]
  have hcomp : (ProductOut.stripId ∘ serialize_product) = Prod.snd (α := Nat) (β := Product) := by
    funext kp
    rfl
  rw [hcomp, hprod]

theorem first_listing_seeds_catalog_witness :
    w_empty.products = [] ∧
    ((list_products (some w_empty) none).1.map ProductOut.stripId = SEED_PRODUCTS ∧
     (∃ s2 : Store, (list_products (some w_empty) none).2 = some s2 ∧
       s2.products.map Prod.snd = SEED_PRODUCTS) ∧
     SEED_PRODUCTS.length = 4) :=
  ⟨rfl, first_listing_seeds_catalog w_empty rfl⟩

/-- Claim C8: every order placement — validation-rejected, failed or
successful — leaves the product collection exactly as it was: the workflow
only reads the catalog and only ever writes to the order collection. -/
theorem create_order_products_unchanged (db : Option Store) (order : OrderCreate) :
    ((handle_create_order db order).2.1).map Store.products = db.map Store.products := by
  cases hv : OrderCreate.is_valid order with
  | false => simp [handle_create_order, hv]
  | true =>
    rcases hres : (processItems db order.items).1 with e | ⟨lis, total⟩
    · simp [handle_create_order, hv, create_order, hres]
    · cases db with
      | none => simp [handle_create_order, hv, create_order, hres, create_document_order]
      | some s =>
        simp [handle_create_order, hv, create_order, hres, create_document_order,
          find_one_order, List.getElem?_concat_length]

end SmileyStore
